import Mathlib

/-!
Verification of the Matcha Budget Tracker service (FastAPI, `src/main.py`,
`src/models/expense.py`, `src/models/location.py`) against its
natural-language specification.

The two process-local stores (`expenses`, `locations` in `src/main.py`) are
Python dicts keyed by UUID.  We embed a dict as an insertion-ordered
association list over `Nat` keys (UUIDs are opaque identifiers; only
equality on them is used by the code).  Python dict semantics:
assignment to a present key replaces the value in place, assignment to an
absent key appends, deletion removes the entry, and `values()` iterates in
insertion order.

Timestamps (`datetime.utcnow`) are embedded as an abstract clock value
`now : Nat` supplied to each request; the `default_factory` reads inside
one model construction observe the same request instant.

Handlers that can raise `HTTPException` are embedded as `Except ApiError`;
raising an exception leaves the module-level store unchanged, which the
embedding expresses with the `expStateAfter`/`locStateAfter` combinators.
-/

namespace Matcha

/-- Python dict lookup `d[k]` (also `k in d`) on an insertion-ordered
association list. -/
def dictGet (k : Nat) : List (Nat × α) → Option α
  | [] => none
  | (k', v) :: rest => if k = k' then some v else dictGet k rest

/-- Python dict assignment `d[k] = v`: replace in place if the key is
present, append otherwise. -/
def dictSet (k : Nat) (v : α) : List (Nat × α) → List (Nat × α)
  | [] => [(k, v)]
  | (k', v') :: rest =>
    if k = k' then (k, v) :: rest else (k', v') :: dictSet k v rest

/-- Python dict deletion `del d[k]`. -/
def dictDel (k : Nat) : List (Nat × α) → List (Nat × α)
  | [] => []
  | (k', v') :: rest =>
    if k = k' then rest else (k', v') :: dictDel k rest

/-- `list(d.keys())`. -/
def dictKeys (d : List (Nat × α)) : List Nat := d.map Prod.fst

/-- `list(d.values())`, in insertion order. -/
def dictValues (d : List (Nat × α)) : List α := d.map Prod.snd

theorem dictGet_dictSet_self (k : Nat) (v : α) (d : List (Nat × α)) :
    dictGet k (dictSet k v d) = some v := by
  induction d with
  | nil => simp [dictGet, dictSet]
  | cons p rest ih =>
    obtain ⟨k', v'⟩ := p
    by_cases h : k = k' <;> simp [dictGet, dictSet, h, ih]

theorem dictGet_dictSet_ne (k k' : Nat) (v : α) (d : List (Nat × α))
    (h : k ≠ k') : dictGet k (dictSet k' v d) = dictGet k d := by
  induction d with
  | nil => simp [dictGet, dictSet, h]
  | cons p rest ih =>
    obtain ⟨k'', v''⟩ := p
    by_cases h1 : k' = k''
    · subst h1; simp [dictGet, dictSet, h]
    · by_cases h2 : k = k'' <;> simp [dictGet, dictSet, h1, h2, ih]

theorem dictDel_sublist (k : Nat) (d : List (Nat × α)) :
    (dictDel k d).Sublist d := by
  induction d with
  | nil => simp [dictDel]
  | cons p rest ih =>
    obtain ⟨k', v'⟩ := p
    by_cases h : k = k'
    · simp only [dictDel, if_pos h]
      exact List.sublist_cons_self _ _
    · simp only [dictDel, if_neg h]
      exact List.Sublist.cons₂ _ ih

theorem dictGet_dictDel_ne (k k' : Nat) (d : List (Nat × α))
    (h : k ≠ k') : dictGet k (dictDel k' d) = dictGet k d := by
  induction d with
  | nil => simp [dictDel]
  | cons p rest ih =>
    obtain ⟨k'', v''⟩ := p
    by_cases h1 : k' = k''
    · subst h1; simp [dictDel, dictGet, h]
    · by_cases h2 : k = k'' <;> simp [dictDel, dictGet, h1, h2, ih]

theorem dictGet_none_of_not_mem_keys (k : Nat) (d : List (Nat × α))
    (h : k ∉ d.map Prod.fst) : dictGet k d = none := by
  induction d with
  | nil => rfl
  | cons p rest ih =>
    obtain ⟨k', v'⟩ := p
    simp only [List.map_cons, List.mem_cons, not_or] at h
    simp [dictGet, h.1, ih h.2]

theorem dictGet_dictDel_self (k : Nat) (d : List (Nat × α))
    (hnd : (dictKeys d).Nodup) : dictGet k (dictDel k d) = none := by
  induction d with
  | nil => rfl
  | cons p rest ih =>
    obtain ⟨k', v'⟩ := p
    have hnd' : k' ∉ rest.map Prod.fst ∧ (rest.map Prod.fst).Nodup := by
      simpa [dictKeys, List.nodup_cons] using hnd
    by_cases h : k = k'
    · subst h
      simp only [dictDel, if_pos rfl]
      exact dictGet_none_of_not_mem_keys _ _ hnd'.1
    · simp only [dictDel, if_neg h, dictGet, if_neg h]
      exact ih (by simpa [dictKeys] using hnd'.2)

theorem mem_dictSet (k : Nat) (v : α) (d : List (Nat × α)) (p : Nat × α)
    (hp : p ∈ dictSet k v d) : p = (k, v) ∨ p ∈ d := by
  induction d with
  | nil => simpa [dictSet] using hp
  | cons q rest ih =>
    obtain ⟨k', v'⟩ := q
    simp only [dictSet] at hp
    split at hp
    · rcases List.mem_cons.mp hp with h1 | h1
      · exact Or.inl h1
      · exact Or.inr (List.mem_cons_of_mem _ h1)
    · rcases List.mem_cons.mp hp with h1 | h1
      · exact Or.inr (by simp [h1])
      · rcases ih h1 with h2 | h2
        · exact Or.inl h2
        · exact Or.inr (List.mem_cons_of_mem _ h2)


theorem mem_dictDel (k : Nat) (d : List (Nat × α)) (p : Nat × α)
    (hp : p ∈ dictDel k d) : p ∈ d :=
  (dictDel_sublist k d).subset hp

theorem dictGet_some_mem (k : Nat) (v : α) (d : List (Nat × α))
    (h : dictGet k d = some v) : (k, v) ∈ d := by
  induction d with
  | nil => simp [dictGet] at h
  | cons q rest ih =>
    obtain ⟨k', v'⟩ := q
    simp only [dictGet] at h
    split at h
    · rename_i heq
      subst heq
      cases h
      exact List.mem_cons_self _ _
    · exact List.mem_cons_of_mem _ (ih h)

theorem keys_dictSet (k : Nat) (v : α) (d : List (Nat × α)) :
    (k ∈ d.map Prod.fst ∧ (dictSet k v d).map Prod.fst = d.map Prod.fst) ∨
    (k ∉ d.map Prod.fst ∧
      (dictSet k v d).map Prod.fst = d.map Prod.fst ++ [k]) := by
  induction d with
  | nil => right; simp [dictSet]
  | cons q rest ih =>
    obtain ⟨k', v'⟩ := q
    by_cases h : k = k'
    · subst h
      left
      constructor
      · simp
      · simp [dictSet]
    · rcases ih with ⟨hm, he⟩ | ⟨hm, he⟩
      · left
        constructor
        · simp [hm]
        · simp [dictSet, if_neg h, he]
      · right
        constructor
        · simp [h, hm]
        · simp [dictSet, if_neg h, he]

theorem dictKeys_dictSet_nodup (k : Nat) (v : α) (d : List (Nat × α))
    (hnd : (dictKeys d).Nodup) : (dictKeys (dictSet k v d)).Nodup := by
  simp only [dictKeys] at hnd ⊢
  rcases keys_dictSet k v d with ⟨_, he⟩ | ⟨hm, he⟩
  · rw [he]; exact hnd
  · rw [he, List.nodup_append]
    refine ⟨hnd, List.nodup_singleton _, ?_⟩
    intro a ha hb
    rw [List.mem_singleton] at hb
    subst hb
    exact hm ha

theorem dictKeys_dictDel_nodup (k : Nat) (d : List (Nat × α))
    (hnd : (dictKeys d).Nodup) : (dictKeys (dictDel k d)).Nodup := by
  simp only [dictKeys] at hnd ⊢
  exact hnd.sublist ((dictDel_sublist k d).map Prod.fst)

/-! ## Python value equality for the list filters

The expense list filter compares the stored `cost` (a Python `float`)
against the query string with plain `==`.  In Python a `float` never
equals a `str` (for example `9.99 == "9.99"` is `False`), while same-type
comparisons are value equality. -/

inductive PyVal where
  | str (s : String)
  | float (q : Rat)
deriving DecidableEq

def pyEq : PyVal → PyVal → Bool
  | .str a, .str b => a == b
  | .float a, .float b => a == b
  | .str _, .float _ => false
  | .float _, .str _ => false

/-- `HTTPException(status_code=..., detail=...)` raised by a handler. -/
structure ApiError where
  status : Nat
  detail : String
deriving DecidableEq

def expenseNotFound : ApiError := ⟨404, "Expense not found"⟩

def expenseConflict : ApiError := ⟨400, "Expense with this ID already exists"⟩

def locationNotFound : ApiError := ⟨404, "Location not found"⟩

/-- A Python runtime error escaping a handler (surfaced as HTTP 500). -/
inductive PyErr where
  | attributeError
deriving DecidableEq

/-! ## Expense models (`src/models/expense.py`)

`UUID` identifiers are embedded as `Nat`, `date` values as their
`YYYY-MM-DD` rendering (the code only ever compares `str(a.expense_date)`
with a query string), `float` costs as `Rat`, `datetime` timestamps as an
abstract `Nat` clock. -/

/-- `ExpenseRead`: stored representation, server timestamps included. -/
structure ExpenseRead where
  id : Nat
  expense_date : String
  order_name : String
  type : String
  location : Option String
  cost : Rat
  created_at : Nat
  updated_at : Nat
deriving DecidableEq

/-- `ExpenseCreate`: validated creation payload (no timestamps). -/
structure ExpenseCreate where
  id : Nat
  expense_date : String
  order_name : String
  type : String
  location : Option String
  cost : Rat
deriving DecidableEq

/-- `ExpenseUpdate` under `model_dump(exclude_unset=True)`: `none` means
the field was absent from the PATCH body and is dropped from the merge
dict; `some v` means it was supplied with value `v`.  For the nullable
`location` field the supplied value may itself be null. -/
structure ExpenseUpdate where
  expense_date : Option String
  order_name : Option String
  type : Option String
  location : Option (Option String)
  cost : Option Rat
deriving DecidableEq

abbrev ExpenseDb := List (Nat × ExpenseRead)

/-- `ExpenseRead(**expense.model_dump())` (src/main.py line 39): the
payload supplies `id` and the domain fields; `created_at` and
`updated_at` fall back to their `datetime.utcnow` default factories read
at the request instant `now`. -/
def mkExpenseRead (now : Nat) (e : ExpenseCreate) : ExpenseRead where
  id := e.id
  expense_date := e.expense_date
  order_name := e.order_name
  type := e.type
  location := e.location
  cost := e.cost
  created_at := now
  updated_at := now

/-- `POST /expenses` (src/main.py lines 35-40). -/
def create_expense (now : Nat) (e : ExpenseCreate) (db : ExpenseDb) :
    Except ApiError (ExpenseRead × ExpenseDb) :=
  if (dictGet e.id db).isSome then
    .error expenseConflict
  else
    let r := mkExpenseRead now e
    .ok (r, dictSet e.id r db)

/-- `GET /expenses` (src/main.py lines 42-63).  Filters are applied
sequentially; the `expense_date` filter compares `str(a.expense_date)`
(dates embedded as their rendered string) and the `cost` filter compares
the `float` cost against the query string with Python `==`. -/
def list_expenses (expense_date order_name type location cost : Option String)
    (db : ExpenseDb) : List ExpenseRead :=
  let results := dictValues db
  let results := match expense_date with
    | none => results
    | some v => results.filter (fun a => a.expense_date == v)
  let results := match order_name with
    | none => results
    | some v => results.filter (fun a => a.order_name == v)
  let results := match type with
    | none => results
    | some v => results.filter (fun a => a.type == v)
  let results := match location with
    | none => results
    | some v => results.filter (fun a => a.location == some v)
  let results := match cost with
    | none => results
    | some v => results.filter (fun a => pyEq (.float a.cost) (.str v))
  results

/-- `GET /expenses/{expense_id}` (src/main.py lines 65-69). -/
def get_expense (expense_id : Nat) (db : ExpenseDb) :
    Except ApiError ExpenseRead :=
  match dictGet expense_id db with
  | none => .error expenseNotFound
  | some r => .ok r

/-- The merge step of `PATCH /expenses/{expense_id}` (src/main.py lines
75-77): `stored = expenses[id].model_dump()` holds every key including
`id`, `created_at` and `updated_at`; `stored.update(update.model_dump
(exclude_unset=True))` overwrites exactly the keys set in the PATCH body
(the update model has no `id` or timestamp fields); `ExpenseRead(**stored)`
then finds every key present, so no default factory fires and the old
timestamps are carried over unchanged. -/
def applyExpenseUpdate (stored : ExpenseRead) (u : ExpenseUpdate) :
    ExpenseRead where
  id := stored.id
  expense_date := u.expense_date.getD stored.expense_date
  order_name := u.order_name.getD stored.order_name
  type := u.type.getD stored.type
  location := u.location.getD stored.location
  cost := u.cost.getD stored.cost
  created_at := stored.created_at
  updated_at := stored.updated_at

/-- `PATCH /expenses/{expense_id}` (src/main.py lines 71-78). -/
def update_expense (expense_id : Nat) (u : ExpenseUpdate) (db : ExpenseDb) :
    Except ApiError (ExpenseRead × ExpenseDb) :=
  match dictGet expense_id db with
  | none => .error expenseNotFound
  | some stored =>
    let merged := applyExpenseUpdate stored u
    .ok (merged, dictSet expense_id merged db)

/-- `DELETE /expenses/{expense_id}` (src/main.py lines 80-85). -/
def delete_expense (expense_id : Nat) (db : ExpenseDb) :
    Except ApiError ExpenseDb :=
  match dictGet expense_id db with
  | none => .error expenseNotFound
  | some _ => .ok (dictDel expense_id db)

/-- The module-level store after a handler that returns a record and a
store: raising an exception aborts the handler before any assignment, so
the store keeps its previous value. -/
def stateAfter (db : σ) : Except ε (ρ × σ) → σ
  | .ok (_, d) => d
  | .error _ => db

/-- Same, for the delete handlers (no response record). -/
def stateAfterDel (db : σ) : Except ε σ → σ
  | .ok d => d
  | .error _ => db

/-! ## Location models (`src/models/location.py`) -/

/-- `LocationRead`: stored representation, server timestamps included.
Note that this model has no field named `locations`; `src/main.py` lines
125-128 nevertheless access `p.locations`. -/
structure LocationRead where
  id : Nat
  name : String
  street : String
  city : String
  state : Option String
  postal_code : Option String
  country : String
  best_drink : Option String
  created_at : Nat
  updated_at : Nat
deriving DecidableEq

/-- `LocationCreate`: validated creation payload (no timestamps). -/
structure LocationCreate where
  id : Nat
  name : String
  street : String
  city : String
  state : Option String
  postal_code : Option String
  country : String
  best_drink : Option String
deriving DecidableEq

/-- `LocationUpdate` under `model_dump(exclude_unset=True)`: `none` means
the field was absent from the PATCH body; `some v` means it was supplied
with value `v` (for the nullable `state`, `postal_code` and `best_drink`
fields the supplied value may itself be null). -/
structure LocationUpdate where
  name : Option String
  street : Option String
  city : Option String
  state : Option (Option String)
  postal_code : Option (Option String)
  country : Option String
  best_drink : Option (Option String)
deriving DecidableEq

/-- Raw JSON body of `POST /locations` before validation: outer `none`
means the key is absent from the body; for nullable fields the supplied
value may itself be null. -/
structure LocationPayload where
  id : Option Nat
  name : Option String
  street : Option String
  city : Option String
  state : Option (Option String)
  postal_code : Option (Option String)
  country : Option String
  best_drink : Option (Option String)
deriving DecidableEq

/-- Pydantic request-body validation failure (surfaced as HTTP 422,
before the handler and the store are reached). -/
inductive ValidationErr where
  | fieldRequired (field : String)
deriving DecidableEq

abbrev LocationDb := List (Nat × LocationRead)

/-- Pydantic validation of `LocationCreate`: `name`, `street`, `city` and
`country` are declared `str = Field(...)` — required; `best_drink` is
declared `Optional[str] = Field(...)` — the `...` default marks it
required as well, though a null value passes; `state` and `postal_code`
are `Optional[str] = Field(None, ...)` — truly optional, defaulting to
null; `id` has `default_factory=uuid4`, embedded by the `freshId`
parameter. -/
def parseLocationCreate (freshId : Nat) (p : LocationPayload) :
    Except ValidationErr LocationCreate :=
  match p.name with
  | none => .error (.fieldRequired "name")
  | some n =>
    match p.street with
    | none => .error (.fieldRequired "street")
    | some st =>
      match p.city with
      | none => .error (.fieldRequired "city")
      | some c =>
        match p.country with
        | none => .error (.fieldRequired "country")
        | some co =>
          match p.best_drink with
          | none => .error (.fieldRequired "best_drink")
          | some bd =>
            .ok { id := p.id.getD freshId, name := n, street := st,
                  city := c, state := p.state.getD none,
                  postal_code := p.postal_code.getD none,
                  country := co, best_drink := bd }

/-- `LocationRead(**location.model_dump())` (src/main.py line 93). -/
def mkLocationRead (now : Nat) (l : LocationCreate) : LocationRead where
  id := l.id
  name := l.name
  street := l.street
  city := l.city
  state := l.state
  postal_code := l.postal_code
  country := l.country
  best_drink := l.best_drink
  created_at := now
  updated_at := now

/-- `POST /locations` (src/main.py lines 90-95).  Unlike the expense
handler there is no duplicate-identifier check: the assignment
`locations[location_read.id] = location_read` overwrites whatever was
stored under that key.  The handler cannot fail. -/
def create_location (now : Nat) (l : LocationCreate) (db : LocationDb) :
    LocationRead × LocationDb :=
  let r := mkLocationRead now l
  (r, dictSet r.id r db)

/-- The seven flat field filters of `GET /locations` (src/main.py lines
107-122), applied sequentially in declaration order. -/
def locFlatFilter (name street city state postal_code country best_drink :
    Option String) (db : LocationDb) : List LocationRead :=
  let results := dictValues db
  let results := match name with
    | none => results
    | some v => results.filter (fun p => p.name == v)
  let results := match street with
    | none => results
    | some v => results.filter (fun p => p.street == v)
  let results := match city with
    | none => results
    | some v => results.filter (fun p => p.city == v)
  let results := match state with
    | none => results
    | some v => results.filter (fun p => p.state == some v)
  let results := match postal_code with
    | none => results
    | some v => results.filter (fun p => p.postal_code == some v)
  let results := match country with
    | none => results
    | some v => results.filter (fun p => p.country == v)
  let results := match best_drink with
    | none => results
    | some v => results.filter (fun p => p.best_drink == some v)
  results

/-- The "nested address filtering" step (src/main.py lines 124-128):
`[p for p in results if any(addr.city == city for addr in p.locations)]`.
`LocationRead` defines no attribute `locations`, so evaluating
`p.locations` for the first element of `results` raises `AttributeError`;
the comprehension completes (vacuously, with `[]`) only when `results`
is already empty. -/
def nestedAddrFilter (filt : Option String) (results : List LocationRead) :
    Except PyErr (List LocationRead) :=
  match filt, results with
  | none, rs => .ok rs
  | some _, [] => .ok []
  | some _, _ :: _ => .error .attributeError

/-- `GET /locations` (src/main.py lines 97-130): flat filters, then the
nested city re-filter, then the nested country re-filter. -/
def list_locations (name street city state postal_code country best_drink :
    Option String) (db : LocationDb) : Except PyErr (List LocationRead) :=
  let results :=
    locFlatFilter name street city state postal_code country best_drink db
  match nestedAddrFilter city results with
  | .error e => .error e
  | .ok r1 => nestedAddrFilter country r1

/-- `GET /locations/{location_id}` (src/main.py lines 132-136). -/
def get_location (location_id : Nat) (db : LocationDb) :
    Except ApiError LocationRead :=
  match dictGet location_id db with
  | none => .error locationNotFound
  | some r => .ok r

/-- The merge step of `PATCH /locations/{location_id}` (src/main.py lines
142-144); as for expenses, `id`, `created_at` and `updated_at` are
carried over from the stored dump and no default factory fires. -/
def applyLocationUpdate (stored : LocationRead) (u : LocationUpdate) :
    LocationRead where
  id := stored.id
  name := u.name.getD stored.name
  street := u.street.getD stored.street
  city := u.city.getD stored.city
  state := u.state.getD stored.state
  postal_code := u.postal_code.getD stored.postal_code
  country := u.country.getD stored.country
  best_drink := u.best_drink.getD stored.best_drink
  created_at := stored.created_at
  updated_at := stored.updated_at

/-- `PATCH /locations/{location_id}` (src/main.py lines 138-145). -/
def update_location (location_id : Nat) (u : LocationUpdate)
    (db : LocationDb) : Except ApiError (LocationRead × LocationDb) :=
  match dictGet location_id db with
  | none => .error locationNotFound
  | some stored =>
    let merged := applyLocationUpdate stored u
    .ok (merged, dictSet location_id merged db)

/-- `DELETE /locations/{location_id}` (src/main.py lines 147-152). -/
def delete_location (location_id : Nat) (db : LocationDb) :
    Except ApiError LocationDb :=
  match dictGet location_id db with
  | none => .error locationNotFound
  | some _ => .ok (dictDel location_id db)

/-! ## Concrete sample data (used by the witnesses) -/

def expC1 : ExpenseCreate :=
  { id := 1, expense_date := "2025-01-01",
    order_name := "Lavender Matcha Latte", type := "Cafe",
    location := some "Sorate", cost := (10 : Rat) }

def expC2 : ExpenseCreate :=
  { id := 2, expense_date := "2020-01-20",
    order_name := "Matcha latte", type := "Self-made",
    location := some "Home", cost := (1 : Rat) }

def expDb1 : ExpenseDb := [(1, mkExpenseRead 0 expC1)]

def updOrder : ExpenseUpdate :=
  { expense_date := none, order_name := some "Matcha latte w/ almond milk",
    type := none, location := none, cost := none }

def locC1 : LocationCreate :=
  { id := 1, name := "Sorate", street := "103 Sullivan St",
    city := "New York", state := some "NY", postal_code := some "10012",
    country := "USA", best_drink := some "Lavender lemon matcha" }

def locC2 : LocationCreate :=
  { id := 1, name := "Isshiki", street := "183 Grand Street",
    city := "New York", state := some "NY", postal_code := some "10013",
    country := "USA", best_drink := none }

def locDb1 : LocationDb := [(1, mkLocationRead 0 locC1)]

def updCity : LocationUpdate :=
  { name := none, street := none, city := some "Boston", state := none,
    postal_code := none, country := none, best_drink := none }

/-! ## Claims -/

/-- C1: the spec says a successful Update refreshes `updated_at`, so the
stored/returned `updated_at` strictly increases.  The code does the
opposite: the merged dump carries the stored `updated_at` through
unchanged (no key of the PATCH body names it and, the key being present,
the default factory never fires), so for every stored record and every
partial payload the update succeeds with `updated_at` exactly equal to
the value stored before the update — never strictly greater. -/
theorem c1_update_keeps_updated_at :
    (∀ (i : Nat) (u : ExpenseUpdate) (db : ExpenseDb) (stored : ExpenseRead),
      dictGet i db = some stored →
      ∃ r db', update_expense i u db = .ok (r, db') ∧
        r.updated_at = stored.updated_at ∧ dictGet i db' = some r) ∧
    (∀ (i : Nat) (u : LocationUpdate) (db : LocationDb)
        (stored : LocationRead),
      dictGet i db = some stored →
      ∃ r db', update_location i u db = .ok (r, db') ∧
        r.updated_at = stored.updated_at ∧ dictGet i db' = some r) := by
  constructor
  · intro i u db stored h
    exact ⟨applyExpenseUpdate stored u,
      dictSet i (applyExpenseUpdate stored u) db,
      by simp [update_expense, h], rfl, dictGet_dictSet_self _ _ _⟩
  · intro i u db stored h
    exact ⟨applyLocationUpdate stored u,
      dictSet i (applyLocationUpdate stored u) db,
      by simp [update_location, h], rfl, dictGet_dictSet_self _ _ _⟩

theorem c1_update_keeps_updated_at_witness :
    (∃ r db', update_expense 1 updOrder expDb1 = .ok (r, db') ∧
      r.updated_at = (mkExpenseRead 0 expC1).updated_at ∧
      dictGet 1 db' = some r) ∧
    (∃ r db', update_location 1 updCity locDb1 = .ok (r, db') ∧
      r.updated_at = (mkLocationRead 0 locC1).updated_at ∧
      dictGet 1 db' = some r) :=
  ⟨c1_update_keeps_updated_at.1 1 updOrder expDb1 (mkExpenseRead 0 expC1)
      rfl,
   c1_update_keeps_updated_at.2 1 updCity locDb1 (mkLocationRead 0 locC1)
      rfl⟩

/-- C2: the spec says the nested city/country re-filter of the location
list is a redundant no-op and the operation never fails.  In the code
`p.locations` names an attribute `LocationRead` does not have, so as soon
as a city (or country) filter is supplied and at least one record
survives the flat filters, the handler raises `AttributeError` instead of
returning the filtered list. -/
theorem c2_city_country_filter_attribute_error :
    (∀ (fn fs fst fp fco fb : Option String) (c : String)
        (db : LocationDb),
      locFlatFilter fn fs (some c) fst fp fco fb db ≠ [] →
      list_locations fn fs (some c) fst fp fco fb db =
        .error .attributeError) ∧
    (∀ (fn fs fst fp fb : Option String) (c : String) (db : LocationDb),
      locFlatFilter fn fs none fst fp (some c) fb db ≠ [] →
      list_locations fn fs none fst fp (some c) fb db =
        .error .attributeError) := by
  constructor
  · intro fn fs fst fp fco fb c db h
    cases hres : locFlatFilter fn fs (some c) fst fp fco fb db with
    | nil => exact absurd hres h
    | cons x xs => simp [list_locations, hres, nestedAddrFilter]
  · intro fn fs fst fp fb c db h
    cases hres : locFlatFilter fn fs none fst fp (some c) fb db with
    | nil => exact absurd hres h
    | cons x xs => simp [list_locations, hres, nestedAddrFilter]

theorem c2_city_country_filter_attribute_error_witness :
    list_locations none none (some "New York") none none none none locDb1 =
      .error .attributeError ∧
    list_locations none none none none none (some "USA") none locDb1 =
      .error .attributeError :=
  ⟨c2_city_country_filter_attribute_error.1 none none none none none none
      "New York" locDb1 (by decide),
   c2_city_country_filter_attribute_error.2 none none none none none
      "USA" locDb1 (by decide)⟩

/-- C3: the spec says the expense `cost` filter is a string-exact-match
on the rendered cost, so a record whose cost renders as the filter value
is returned.  The code compares the `float` cost to the query string with
Python `==`, which is `False` for every float/str pair, so a list request
carrying any `cost` filter returns the empty list no matter what is
stored. -/
theorem c3_cost_filter_always_empty :
    ∀ (fd fo ft fl : Option String) (c : String) (db : ExpenseDb),
      list_expenses fd fo ft fl (some c) db = [] := by
  intro fd fo ft fl c db
  simp [list_expenses, pyEq]

/-- A location-create body supplying every required flat field but
omitting `best_drink` entirely. -/
def locPayloadNoBest : LocationPayload :=
  { id := some 7, name := some "Sorate", street := some "103 Sullivan St",
    city := some "New York", state := some (some "NY"),
    postal_code := none, country := some "USA", best_drink := none }

/-- Same body with `best_drink` present but null. -/
def locPayloadNullBest : LocationPayload :=
  { id := some 7, name := some "Sorate", street := some "103 Sullivan St",
    city := some "New York", state := some (some "NY"),
    postal_code := none, country := some "USA",
    best_drink := some none }

/-- C4 counterexample: a create body carrying `name`, `street`, `city`
and `country` but no `best_drink` key is rejected by pydantic with a
missing-field `ValidationError` — the claim says such a body is accepted
and the record inserted.  `best_drink` is declared
`Optional[str] = Field(...)`, whose `...` default makes the key required
(only its value may be null). -/
theorem c4_best_drink_omitted_rejected :
    parseLocationCreate 99 locPayloadNoBest =
      .error (.fieldRequired "best_drink") := rfl

/-- C4 amended: `best_drink` is nullable but must be present.  Every
create body supplying `name`, `street`, `city`, `country` and a
`best_drink` key (its value possibly null) passes validation, reaches
the store, is inserted and returned. -/
theorem c4_best_drink_required_nullable :
    ∀ (p : LocationPayload) (n st c co : String) (bd : Option String)
      (freshId now : Nat) (db : LocationDb),
      p.name = some n → p.street = some st → p.city = some c →
      p.country = some co → p.best_drink = some bd →
      ∃ lc : LocationCreate,
        parseLocationCreate freshId p = .ok lc ∧
        lc.name = n ∧ lc.street = st ∧ lc.city = c ∧ lc.country = co ∧
        lc.best_drink = bd ∧
        (create_location now lc db).1 = mkLocationRead now lc ∧
        dictGet lc.id (create_location now lc db).2 =
          some (mkLocationRead now lc) := by
  intro p n st c co bd freshId now db h1 h2 h3 h4 h5
  refine ⟨{ id := p.id.getD freshId, name := n, street := st, city := c,
            state := p.state.getD none,
            postal_code := p.postal_code.getD none,
            country := co, best_drink := bd },
          ?_, rfl, rfl, rfl, rfl, rfl, rfl, ?_⟩
  · simp [parseLocationCreate, h1, h2, h3, h4, h5]
  · exact dictGet_dictSet_self _ _ _

theorem c4_best_drink_required_nullable_witness :
    ∃ lc : LocationCreate,
      parseLocationCreate 99 locPayloadNullBest = .ok lc ∧
      lc.name = "Sorate" ∧ lc.street = "103 Sullivan St" ∧
      lc.city = "New York" ∧ lc.country = "USA" ∧
      lc.best_drink = none ∧
      (create_location 4 lc []).1 = mkLocationRead 4 lc ∧
      dictGet lc.id (create_location 4 lc []).2 =
        some (mkLocationRead 4 lc) :=
  c4_best_drink_required_nullable locPayloadNullBest "Sorate"
    "103 Sullivan St" "New York" "USA" none 99 4 [] rfl rfl rfl rfl rfl

/-- C5: creating an expense under a fresh identifier and then fetching it
returns a record whose domain fields equal the create payload and whose
`created_at` equals its `updated_at` (both default factories observe the
creation request's instant). -/
theorem c5_create_then_get_roundtrip :
    ∀ (now : Nat) (e : ExpenseCreate) (db : ExpenseDb),
      dictGet e.id db = none →
      ∃ r db', create_expense now e db = .ok (r, db') ∧
        get_expense e.id db' = .ok r ∧
        r.id = e.id ∧ r.expense_date = e.expense_date ∧
        r.order_name = e.order_name ∧ r.type = e.type ∧
        r.location = e.location ∧ r.cost = e.cost ∧
        r.created_at = r.updated_at := by
  intro now e db h
  refine ⟨mkExpenseRead now e, dictSet e.id (mkExpenseRead now e) db,
    ?_, ?_, rfl, rfl, rfl, rfl, rfl, rfl, rfl⟩
  · simp [create_expense, h]
  · simp [get_expense, dictGet_dictSet_self]

theorem c5_create_then_get_roundtrip_witness :
    ∃ r db', create_expense 3 expC2 expDb1 = .ok (r, db') ∧
      get_expense expC2.id db' = .ok r ∧
      r.id = expC2.id ∧ r.expense_date = expC2.expense_date ∧
      r.order_name = expC2.order_name ∧ r.type = expC2.type ∧
      r.location = expC2.location ∧ r.cost = expC2.cost ∧
      r.created_at = r.updated_at :=
  c5_create_then_get_roundtrip 3 expC2 expDb1 rfl

/-- C6: creating an expense under an identifier that is already stored
fails with the HTTP 400 "already exists" conflict, and the store is left
exactly as it was — in particular the record previously stored under that
identifier is untouched. -/
theorem c6_duplicate_create_conflict :
    ∀ (now : Nat) (e : ExpenseCreate) (db : ExpenseDb) (old : ExpenseRead),
      dictGet e.id db = some old →
      create_expense now e db = .error expenseConflict ∧
      stateAfter db (create_expense now e db) = db ∧
      dictGet e.id (stateAfter db (create_expense now e db)) = some old := by
  intro now e db old h
  have hcreate : create_expense now e db = .error expenseConflict := by
    simp [create_expense, h]
  exact ⟨hcreate, by simp [hcreate, stateAfter], by
    simp [hcreate, stateAfter, h]⟩

theorem c6_duplicate_create_conflict_witness :
    create_expense 9 expC1 expDb1 = .error expenseConflict ∧
    stateAfter expDb1 (create_expense 9 expC1 expDb1) = expDb1 ∧
    dictGet expC1.id (stateAfter expDb1 (create_expense 9 expC1 expDb1)) =
      some (mkExpenseRead 0 expC1) :=
  c6_duplicate_create_conflict 9 expC1 expDb1 (mkExpenseRead 0 expC1) rfl

/-- C7: a successful partial update changes only the fields set in the
PATCH body: `id` and `created_at` are always carried over, and every
domain field whose key is absent from the body keeps its stored value in
the merged record that is stored and returned (omitted fields are not
cleared). -/
theorem c7_update_frame :
    (∀ (i : Nat) (u : ExpenseUpdate) (db : ExpenseDb)
        (stored : ExpenseRead),
      dictGet i db = some stored →
      ∃ r db', update_expense i u db = .ok (r, db') ∧
        dictGet i db' = some r ∧
        r.id = stored.id ∧ r.created_at = stored.created_at ∧
        (u.expense_date = none → r.expense_date = stored.expense_date) ∧
        (u.order_name = none → r.order_name = stored.order_name) ∧
        (u.type = none → r.type = stored.type) ∧
        (u.location = none → r.location = stored.location) ∧
        (u.cost = none → r.cost = stored.cost)) ∧
    (∀ (i : Nat) (u : LocationUpdate) (db : LocationDb)
        (stored : LocationRead),
      dictGet i db = some stored →
      ∃ r db', update_location i u db = .ok (r, db') ∧
        dictGet i db' = some r ∧
        r.id = stored.id ∧ r.created_at = stored.created_at ∧
        (u.name = none → r.name = stored.name) ∧
        (u.street = none → r.street = stored.street) ∧
        (u.city = none → r.city = stored.city) ∧
        (u.state = none → r.state = stored.state) ∧
        (u.postal_code = none → r.postal_code = stored.postal_code) ∧
        (u.country = none → r.country = stored.country) ∧
        (u.best_drink = none → r.best_drink = stored.best_drink)) := by
  constructor
  · intro i u db stored h
    refine ⟨applyExpenseUpdate stored u,
      dictSet i (applyExpenseUpdate stored u) db,
      by simp [update_expense, h], dictGet_dictSet_self _ _ _,
      rfl, rfl, ?_, ?_, ?_, ?_, ?_⟩ <;>
      · intro hu
        simp [applyExpenseUpdate, hu]
  · intro i u db stored h
    refine ⟨applyLocationUpdate stored u,
      dictSet i (applyLocationUpdate stored u) db,
      by simp [update_location, h], dictGet_dictSet_self _ _ _,
      rfl, rfl, ?_, ?_, ?_, ?_, ?_, ?_, ?_⟩ <;>
      · intro hu
        simp [applyLocationUpdate, hu]

theorem c7_update_frame_witness :
    (∃ r db', update_expense 1 updOrder expDb1 = .ok (r, db') ∧
      dictGet 1 db' = some r ∧
      r.id = (mkExpenseRead 0 expC1).id ∧
      r.created_at = (mkExpenseRead 0 expC1).created_at ∧
      (updOrder.expense_date = none →
        r.expense_date = (mkExpenseRead 0 expC1).expense_date) ∧
      (updOrder.order_name = none →
        r.order_name = (mkExpenseRead 0 expC1).order_name) ∧
      (updOrder.type = none → r.type = (mkExpenseRead 0 expC1).type) ∧
      (updOrder.location = none →
        r.location = (mkExpenseRead 0 expC1).location) ∧
      (updOrder.cost = none → r.cost = (mkExpenseRead 0 expC1).cost)) ∧
    (∃ r db', update_location 1 updCity locDb1 = .ok (r, db') ∧
      dictGet 1 db' = some r ∧
      r.id = (mkLocationRead 0 locC1).id ∧
      r.created_at = (mkLocationRead 0 locC1).created_at ∧
      (updCity.name = none → r.name = (mkLocationRead 0 locC1).name) ∧
      (updCity.street = none →
        r.street = (mkLocationRead 0 locC1).street) ∧
      (updCity.city = none → r.city = (mkLocationRead 0 locC1).city) ∧
      (updCity.state = none → r.state = (mkLocationRead 0 locC1).state) ∧
      (updCity.postal_code = none →
        r.postal_code = (mkLocationRead 0 locC1).postal_code) ∧
      (updCity.country = none →
        r.country = (mkLocationRead 0 locC1).country) ∧
      (updCity.best_drink = none →
        r.best_drink = (mkLocationRead 0 locC1).best_drink)) :=
  ⟨c7_update_frame.1 1 updOrder expDb1 (mkExpenseRead 0 expC1) rfl,
   c7_update_frame.2 1 updCity locDb1 (mkLocationRead 0 locC1) rfl⟩

/-- C8: any get, update or delete addressed to an identifier absent from
its collection fails with the 404 not-found error and leaves the store
unchanged, and delete is not idempotent: deleting a stored identifier
succeeds once and the second delete (the identifier now being absent)
fails with not-found. -/
theorem c8_unknown_id_not_found :
    (∀ (i : Nat) (db : ExpenseDb), dictGet i db = none →
      get_expense i db = .error expenseNotFound ∧
      (∀ u, update_expense i u db = .error expenseNotFound ∧
        stateAfter db (update_expense i u db) = db) ∧
      delete_expense i db = .error expenseNotFound ∧
      stateAfterDel db (delete_expense i db) = db) ∧
    (∀ (i : Nat) (db : LocationDb), dictGet i db = none →
      get_location i db = .error locationNotFound ∧
      (∀ u, update_location i u db = .error locationNotFound ∧
        stateAfter db (update_location i u db) = db) ∧
      delete_location i db = .error locationNotFound ∧
      stateAfterDel db (delete_location i db) = db) ∧
    (∀ (i : Nat) (db : ExpenseDb) (r : ExpenseRead),
      (dictKeys db).Nodup → dictGet i db = some r →
      ∃ db', delete_expense i db = .ok db' ∧
        delete_expense i db' = .error expenseNotFound) ∧
    (∀ (i : Nat) (db : LocationDb) (r : LocationRead),
      (dictKeys db).Nodup → dictGet i db = some r →
      ∃ db', delete_location i db = .ok db' ∧
        delete_location i db' = .error locationNotFound) := by
  refine ⟨?_, ?_, ?_, ?_⟩
  · intro i db h
    exact ⟨by simp [get_expense, h],
      fun u => ⟨by simp [update_expense, h],
        by simp [update_expense, h, stateAfter]⟩,
      by simp [delete_expense, h],
      by simp [delete_expense, h, stateAfterDel]⟩
  · intro i db h
    exact ⟨by simp [get_location, h],
      fun u => ⟨by simp [update_location, h],
        by simp [update_location, h, stateAfter]⟩,
      by simp [delete_location, h],
      by simp [delete_location, h, stateAfterDel]⟩
  · intro i db r hnd h
    refine ⟨dictDel i db, by simp [delete_expense, h], ?_⟩
    have hgone : dictGet i (dictDel i db) = none :=
      dictGet_dictDel_self i db hnd
    simp [delete_expense, hgone]
  · intro i db r hnd h
    refine ⟨dictDel i db, by simp [delete_location, h], ?_⟩
    have hgone : dictGet i (dictDel i db) = none :=
      dictGet_dictDel_self i db hnd
    simp [delete_location, hgone]

theorem c8_unknown_id_not_found_witness :
    get_expense 5 expDb1 = .error expenseNotFound ∧
    update_expense 5 updOrder expDb1 = .error expenseNotFound ∧
    delete_expense 5 expDb1 = .error expenseNotFound ∧
    get_location 5 locDb1 = .error locationNotFound ∧
    update_location 5 updCity locDb1 = .error locationNotFound ∧
    delete_location 5 locDb1 = .error locationNotFound ∧
    (∃ db', delete_expense 1 expDb1 = .ok db' ∧
      delete_expense 1 db' = .error expenseNotFound) ∧
    (∃ db', delete_location 1 locDb1 = .ok db' ∧
      delete_location 1 db' = .error locationNotFound) :=
  ⟨(c8_unknown_id_not_found.1 5 expDb1 rfl).1,
   ((c8_unknown_id_not_found.1 5 expDb1 rfl).2.1 updOrder).1,
   (c8_unknown_id_not_found.1 5 expDb1 rfl).2.2.1,
   (c8_unknown_id_not_found.2.1 5 locDb1 rfl).1,
   ((c8_unknown_id_not_found.2.1 5 locDb1 rfl).2.1 updCity).1,
   (c8_unknown_id_not_found.2.1 5 locDb1 rfl).2.2.1,
   c8_unknown_id_not_found.2.2.1 1 expDb1 (mkExpenseRead 0 expC1)
     (by decide) rfl,
   c8_unknown_id_not_found.2.2.2 1 locDb1 (mkLocationRead 0 locC1)
     (by decide) rfl⟩

/-- The state invariant of the expense store: keys are pairwise distinct,
each stored record's `id` equals its key, and `updated_at ≥ created_at`
holds for every stored record. -/
def ExpenseInv (db : ExpenseDb) : Prop :=
  (dictKeys db).Nodup ∧
  ∀ p ∈ db, p.2.id = p.1 ∧ p.2.created_at ≤ p.2.updated_at

/-- The state invariant of the location store. -/
def LocationInv (db : LocationDb) : Prop :=
  (dictKeys db).Nodup ∧
  ∀ p ∈ db, p.2.id = p.1 ∧ p.2.created_at ≤ p.2.updated_at

instance (db : ExpenseDb) : Decidable (ExpenseInv db) := by
  unfold ExpenseInv; exact inferInstance

instance (db : LocationDb) : Decidable (LocationInv db) := by
  unfold LocationInv; exact inferInstance

/-- C9 counterexample: location create performs no duplicate check, so
creating over the stored identifier 1 (record created at instant 0)
replaces the record with one whose `created_at` is the new request
instant 5 — the `created_at` observable under identifier 1 changes,
refuting "a record's `created_at` never changes" for the location create
operation. -/
theorem c9_created_at_changes_on_replace :
    (dictGet 1 locDb1).map LocationRead.created_at = some 0 ∧
    (dictGet 1 (create_location 5 locC2 locDb1).2).map
      LocationRead.created_at = some 5 ∧
    (0 : Nat) ≠ 5 :=
  ⟨rfl, rfl, by decide⟩

/-- C9 amended: every mutating store operation — with location create
restricted to fresh behaviour at other keys, since creating over an
existing identifier replaces the stored record wholesale, fresh
timestamps included — preserves the store invariant (id equals key,
hence identifiers unique; `updated_at ≥ created_at`), and every
operation except the replacing location create also preserves each
stored record's `created_at`.  Get and list handlers never assign the
store, so they preserve everything by construction. -/
theorem c9_invariants_preserved :
    (∀ (now : Nat) (e : ExpenseCreate) (db : ExpenseDb), ExpenseInv db →
      ExpenseInv (stateAfter db (create_expense now e db)) ∧
      ∀ k r0 r1, dictGet k db = some r0 →
        dictGet k (stateAfter db (create_expense now e db)) = some r1 →
        r1.created_at = r0.created_at) ∧
    (∀ (i : Nat) (u : ExpenseUpdate) (db : ExpenseDb), ExpenseInv db →
      ExpenseInv (stateAfter db (update_expense i u db)) ∧
      ∀ k r0 r1, dictGet k db = some r0 →
        dictGet k (stateAfter db (update_expense i u db)) = some r1 →
        r1.created_at = r0.created_at) ∧
    (∀ (i : Nat) (db : ExpenseDb), ExpenseInv db →
      ExpenseInv (stateAfterDel db (delete_expense i db)) ∧
      ∀ k r0 r1, dictGet k db = some r0 →
        dictGet k (stateAfterDel db (delete_expense i db)) = some r1 →
        r1.created_at = r0.created_at) ∧
    (∀ (now : Nat) (l : LocationCreate) (db : LocationDb),
      LocationInv db →
      LocationInv (create_location now l db).2 ∧
      ∀ k r0 r1, k ≠ l.id → dictGet k db = some r0 →
        dictGet k (create_location now l db).2 = some r1 →
        r1.created_at = r0.created_at) ∧
    (∀ (i : Nat) (u : LocationUpdate) (db : LocationDb), LocationInv db →
      LocationInv (stateAfter db (update_location i u db)) ∧
      ∀ k r0 r1, dictGet k db = some r0 →
        dictGet k (stateAfter db (update_location i u db)) = some r1 →
        r1.created_at = r0.created_at) ∧
    (∀ (i : Nat) (db : LocationDb), LocationInv db →
      LocationInv (stateAfterDel db (delete_location i db)) ∧
      ∀ k r0 r1, dictGet k db = some r0 →
        dictGet k (stateAfterDel db (delete_location i db)) = some r1 →
        r1.created_at = r0.created_at) := by
  refine ⟨?_, ?_, ?_, ?_, ?_, ?_⟩
  · -- expense create
    intro now e db hInv
    by_cases hs : dictGet e.id db = none
    · have hafter : stateAfter db (create_expense now e db) =
          dictSet e.id (mkExpenseRead now e) db := by
        simp [create_expense, hs, stateAfter]
      rw [hafter]
      constructor
      · refine ⟨dictKeys_dictSet_nodup _ _ _ hInv.1, fun p hp => ?_⟩
        rcases mem_dictSet _ _ _ _ hp with h | h
        · subst h; exact ⟨rfl, le_refl _⟩
        · exact hInv.2 p h
      · intro k r0 r1 h0 h1
        have hk : k ≠ e.id := by intro he; rw [he, hs] at h0; cases h0
        rw [dictGet_dictSet_ne _ _ _ _ hk] at h1
        rw [h0] at h1; cases h1; rfl
    · have hsome : (dictGet e.id db).isSome :=
        Option.isSome_iff_ne_none.mpr hs
      have hafter : stateAfter db (create_expense now e db) = db := by
        simp [create_expense, hsome, stateAfter]
      rw [hafter]
      exact ⟨hInv, fun k r0 r1 h0 h1 => by rw [h0] at h1; cases h1; rfl⟩
  · -- expense update
    intro i u db hInv
    cases hdg : dictGet i db with
    | none =>
      have hafter : stateAfter db (update_expense i u db) = db := by
        simp [update_expense, hdg, stateAfter]
      rw [hafter]
      exact ⟨hInv, fun k r0 r1 h0 h1 => by rw [h0] at h1; cases h1; rfl⟩
    | some stored =>
      have hrec := hInv.2 (i, stored) (dictGet_some_mem _ _ _ hdg)
      have hafter : stateAfter db (update_expense i u db) =
          dictSet i (applyExpenseUpdate stored u) db := by
        simp [update_expense, hdg, stateAfter]
      rw [hafter]
      constructor
      · refine ⟨dictKeys_dictSet_nodup _ _ _ hInv.1, fun p hp => ?_⟩
        rcases mem_dictSet _ _ _ _ hp with h | h
        · subst h; exact ⟨hrec.1, hrec.2⟩
        · exact hInv.2 p h
      · intro k r0 r1 h0 h1
        by_cases hk : k = i
        · subst hk
          rw [dictGet_dictSet_self] at h1
          cases h1
          rw [hdg] at h0; cases h0
          rfl
        · rw [dictGet_dictSet_ne _ _ _ _ hk] at h1
          rw [h0] at h1; cases h1; rfl
  · -- expense delete
    intro i db hInv
    cases hdg : dictGet i db with
    | none =>
      have hafter : stateAfterDel db (delete_expense i db) = db := by
        simp [delete_expense, hdg, stateAfterDel]
      rw [hafter]
      exact ⟨hInv, fun k r0 r1 h0 h1 => by rw [h0] at h1; cases h1; rfl⟩
    | some stored =>
      have hafter : stateAfterDel db (delete_expense i db) =
          dictDel i db := by
        simp [delete_expense, hdg, stateAfterDel]
      rw [hafter]
      constructor
      · exact ⟨dictKeys_dictDel_nodup _ _ hInv.1,
          fun p hp => hInv.2 p (mem_dictDel _ _ _ hp)⟩
      · intro k r0 r1 h0 h1
        by_cases hk : k = i
        · subst hk
          rw [dictGet_dictDel_self _ _ hInv.1] at h1
          cases h1
        · rw [dictGet_dictDel_ne _ _ _ hk] at h1
          rw [h0] at h1; cases h1; rfl
  · -- location create (no duplicate check; see the replacement caveat)
    intro now l db hInv
    constructor
    · have hp2 : (create_location now l db).2 =
          dictSet l.id (mkLocationRead now l) db := rfl
      rw [hp2]
      refine ⟨dictKeys_dictSet_nodup _ _ _ hInv.1, fun p hp => ?_⟩
      rcases mem_dictSet _ _ _ _ hp with h | h
      · subst h; exact ⟨rfl, le_refl _⟩
      · exact hInv.2 p h
    · intro k r0 r1 hk h0 h1
      have h1' : dictGet k (dictSet l.id (mkLocationRead now l) db) =
          some r1 := h1
      rw [dictGet_dictSet_ne _ _ _ _ hk] at h1'
      rw [h0] at h1'; cases h1'; rfl
  · -- location update
    intro i u db hInv
    cases hdg : dictGet i db with
    | none =>
      have hafter : stateAfter db (update_location i u db) = db := by
        simp [update_location, hdg, stateAfter]
      rw [hafter]
      exact ⟨hInv, fun k r0 r1 h0 h1 => by rw [h0] at h1; cases h1; rfl⟩
    | some stored =>
      have hrec := hInv.2 (i, stored) (dictGet_some_mem _ _ _ hdg)
      have hafter : stateAfter db (update_location i u db) =
          dictSet i (applyLocationUpdate stored u) db := by
        simp [update_location, hdg, stateAfter]
      rw [hafter]
      constructor
      · refine ⟨dictKeys_dictSet_nodup _ _ _ hInv.1, fun p hp => ?_⟩
        rcases mem_dictSet _ _ _ _ hp with h | h
        · subst h; exact ⟨hrec.1, hrec.2⟩
        · exact hInv.2 p h
      · intro k r0 r1 h0 h1
        by_cases hk : k = i
        · subst hk
          rw [dictGet_dictSet_self] at h1
          cases h1
          rw [hdg] at h0; cases h0
          rfl
        · rw [dictGet_dictSet_ne _ _ _ _ hk] at h1
          rw [h0] at h1; cases h1; rfl
  · -- location delete
    intro i db hInv
    cases hdg : dictGet i db with
    | none =>
      have hafter : stateAfterDel db (delete_location i db) = db := by
        simp [delete_location, hdg, stateAfterDel]
      rw [hafter]
      exact ⟨hInv, fun k r0 r1 h0 h1 => by rw [h0] at h1; cases h1; rfl⟩
    | some stored =>
      have hafter : stateAfterDel db (delete_location i db) =
          dictDel i db := by
        simp [delete_location, hdg, stateAfterDel]
      rw [hafter]
      constructor
      · exact ⟨dictKeys_dictDel_nodup _ _ hInv.1,
          fun p hp => hInv.2 p (mem_dictDel _ _ _ hp)⟩
      · intro k r0 r1 h0 h1
        by_cases hk : k = i
        · subst hk
          rw [dictGet_dictDel_self _ _ hInv.1] at h1
          cases h1
        · rw [dictGet_dictDel_ne _ _ _ hk] at h1
          rw [h0] at h1; cases h1; rfl

theorem c9_invariants_preserved_witness :
    ExpenseInv (stateAfter expDb1 (create_expense 3 expC2 expDb1)) ∧
    ExpenseInv (stateAfter expDb1 (update_expense 1 updOrder expDb1)) ∧
    ExpenseInv (stateAfterDel expDb1 (delete_expense 1 expDb1)) ∧
    LocationInv (create_location 7 locC2 locDb1).2 ∧
    LocationInv (stateAfter locDb1 (update_location 1 updCity locDb1)) ∧
    LocationInv (stateAfterDel locDb1 (delete_location 1 locDb1)) :=
  ⟨(c9_invariants_preserved.1 3 expC2 expDb1 (by decide)).1,
   (c9_invariants_preserved.2.1 1 updOrder expDb1 (by decide)).1,
   (c9_invariants_preserved.2.2.1 1 expDb1 (by decide)).1,
   (c9_invariants_preserved.2.2.2.1 7 locC2 locDb1 (by decide)).1,
   (c9_invariants_preserved.2.2.2.2.1 1 updCity locDb1 (by decide)).1,
   (c9_invariants_preserved.2.2.2.2.2 1 locDb1 (by decide)).1⟩

/-- C10: location create never checks for a duplicate identifier: with a
payload whose identifier is already stored, the handler still succeeds,
returns the freshly built record, and silently overwrites the previously
stored record under that identifier (all other keys untouched), so the
old record's field values are gone from the store. -/
theorem c10_location_create_replaces :
    ∀ (now : Nat) (l : LocationCreate) (db : LocationDb)
      (old : LocationRead),
      dictGet l.id db = some old →
      (create_location now l db).1 = mkLocationRead now l ∧
      dictGet l.id (create_location now l db).2 =
        some (mkLocationRead now l) ∧
      ∀ k, k ≠ l.id →
        dictGet k (create_location now l db).2 = dictGet k db := by
  intro now l db old h
  exact ⟨rfl, dictGet_dictSet_self _ _ _,
    fun k hk => dictGet_dictSet_ne _ _ _ _ hk⟩

theorem c10_location_create_replaces_witness :
    (create_location 7 locC2 locDb1).1 = mkLocationRead 7 locC2 ∧
    dictGet locC2.id (create_location 7 locC2 locDb1).2 =
      some (mkLocationRead 7 locC2) ∧
    dictGet 2 (create_location 7 locC2 locDb1).2 = dictGet 2 locDb1 :=
  ⟨(c10_location_create_replaces 7 locC2 locDb1 (mkLocationRead 0 locC1)
      rfl).1,
   (c10_location_create_replaces 7 locC2 locDb1 (mkLocationRead 0 locC1)
      rfl).2.1,
   (c10_location_create_replaces 7 locC2 locDb1 (mkLocationRead 0 locC1)
      rfl).2.2 2 (by decide)⟩

end Matcha
